import Mathlib

/-!
Shallow embedding of the payroll analytics backend
(`app/backend/server.py`, `app/backend/models.py`, `app/backend/database.py`).

Modelling conventions:
* Python float values are modelled by rationals (`ℚ`); `NaN`/`inf` cells are
  outside the model (cells carry definite string or numeric values).
* A value coming out of a parsed pandas row is a `PyVal`: Python `None`
  (missing column), a string cell, or a numeric cell.
* The SQLite-backed record store is a list of `Employee` rows; the single
  `db.commit()` at the end of the upload handler is an all-or-nothing batch
  append that fails exactly when an inserted row violates the `UNIQUE`
  constraints created by `Base.metadata.create_all` (primary key `id`,
  unique index on `employee_id`; SQL `NULL` keys are exempt).
* An uploaded file's content is characterised by the outcome of the two
  external parsers called on it (`pd.read_csv` on the UTF-8 decoded bytes,
  `pd.read_excel` on the raw bytes): `Except String Table`, error carrying
  the parser/decoder message.
* `uuid.uuid4()` is modelled by a supplied injective-as-needed id source
  `ids : ℕ → String` (row index ↦ fresh id).
-/

namespace Payroll

/-- A Python value as it flows out of a parsed pandas row: `None` (missing
column), a string cell, or a numeric cell (floats as rationals). -/
inductive PyVal
  | vNone
  | vStr (s : String)
  | vNum (q : ℚ)
deriving DecidableEq

/-- One row of the `employees` table (`models.py`, class `Employee`).
`id` is the auto-generated primary key; `employee_id`, `name`, `department`
are dynamically typed columns holding whatever the ingestion loop stored
(`PyVal.vNone` models SQL `NULL`); `monthly_income` is a float column
(`Option` models SQL `NULL`).  The demographic and performance columns are
nullable with the defaults of `models.py` (`overtime`/`attrition` default
`False`). -/
structure Employee where
  id : String
  employee_id : PyVal
  name : PyVal
  department : PyVal
  monthly_income : Option ℚ
  age : Option ℤ
  gender : Option String
  job_role : Option String
  years_at_company : Option ℤ
  overtime : Bool
  attrition : Bool
  performance_rating : Option ℤ
deriving DecidableEq

/-- The record store: the persisted `employees` table, in iteration order. -/
abbrev Store := List Employee

/-! ## Rounding (Python `round(x, 2)`)

Python rounds half to even.  `round(x, 2)` is modelled exactly over `ℚ`:
scale by 100, round half-even to an integer, scale back. -/

/-- Round a rational to the nearest integer, ties to even
(Python `round` semantics). -/
def pyRoundHalfEven (x : ℚ) : ℤ :=
  if x - (⌊x⌋ : ℚ) < 1 / 2 then ⌊x⌋
  else if (1 : ℚ) / 2 < x - (⌊x⌋ : ℚ) then ⌊x⌋ + 1
  else if ⌊x⌋ % 2 = 0 then ⌊x⌋ else ⌊x⌋ + 1

/-- Python `round(q, 2)`. -/
def pyRound2 (q : ℚ) : ℚ :=
  ((pyRoundHalfEven (q * 100) : ℤ) : ℚ) / 100

/-! ## KPI aggregation (`server.py`, `get_kpis`) -/

/-- `SELECT sum(monthly_income) FROM employees` followed by the handler's
`or 0`: SQL `SUM` ignores `NULL` incomes and returns `NULL` (→ `0`) on an
empty table, so the result is the sum with `NULL` read as `0`. -/
def payrollSum (store : Store) : ℚ :=
  (store.map (fun e => e.monthly_income.getD 0)).sum

/-- Response model `KPIResponse` of `server.py`. -/
structure KPIResponse where
  total_employees : ℕ
  total_payroll_cost : ℚ
  avg_salary : ℚ
deriving DecidableEq

/-- Handler `get_kpis` of `server.py`: count, payroll sum (`or 0`),
average guarded against division by zero, monetary fields passed through
`round(_, 2)`. -/
def get_kpis (store : Store) : KPIResponse :=
  let total_employees : ℕ := store.length
  let total_payroll_cost : ℚ := payrollSum store
  let avg_salary : ℚ :=
    if total_employees = 0 then 0 else total_payroll_cost / (total_employees : ℚ)
  { total_employees := total_employees
    total_payroll_cost := pyRound2 total_payroll_cost
    avg_salary := pyRound2 avg_salary }

/-! ## String helpers (Python `str.strip`, `str.endswith`, `float(str)`) -/

/-- ASCII whitespace as stripped by Python string trimming. -/
def isPySpace (c : Char) : Bool :=
  decide (c = ' ') || decide (c = '\t') || decide (c = '\n') || decide (c = '\r')

/-- Strip leading and trailing whitespace from a character list. -/
def stripChars (cs : List Char) : List Char :=
  ((cs.dropWhile isPySpace).reverse.dropWhile isPySpace).reverse

/-- Python `s.strip()`. -/
def stripString (s : String) : String :=
  String.mk (stripChars s.data)

/-- Python `s.endswith(suffix)`. -/
def pyEndsWith (s suffix : String) : Bool :=
  List.isSuffixOf suffix.data s.data

/-- Value of a nonempty digit string. -/
def digitsToNat (cs : List Char) : ℕ :=
  cs.foldl (fun a c => a * 10 + (c.toNat - 48)) 0

/-- Optional leading sign; returns (isNegative, rest). -/
def parseSign : List Char → Bool × List Char
  | '+' :: cs => (false, cs)
  | '-' :: cs => (true, cs)
  | cs => (false, cs)

/-- Split a character list at the first exponent marker `e`/`E`. -/
def splitAtExp : List Char → List Char × Option (List Char)
  | [] => ([], Option.none)
  | c :: cs =>
    if c = 'e' ∨ c = 'E' then ([], some cs)
    else
      let (m, ex) := splitAtExp cs
      (c :: m, ex)

/-- Parse an unsigned decimal mantissa `digits [. digits]` (at least one
digit); `Option.none` on anything else. -/
def parseUnsignedDec (cs : List Char) : Option ℚ :=
  let intPart := cs.takeWhile Char.isDigit
  let rest := cs.dropWhile Char.isDigit
  match rest with
  | [] =>
    if intPart.isEmpty then Option.none else some (digitsToNat intPart : ℚ)
  | '.' :: rest2 =>
    let fracPart := rest2.takeWhile Char.isDigit
    let rest3 := rest2.dropWhile Char.isDigit
    if !rest3.isEmpty then Option.none
    else if intPart.isEmpty && fracPart.isEmpty then Option.none
    else
      some ((digitsToNat intPart : ℚ) +
        (digitsToNat fracPart : ℚ) / (10 : ℚ) ^ fracPart.length)
  | _ => Option.none

/-- Python `float(s)` on a string: strip whitespace, optional sign, decimal
mantissa, optional exponent.  (`nan`/`inf` literals and digit underscores
are outside the model.)  `Option.none` means `float` raises `ValueError`. -/
def parsePyFloat (s : String) : Option ℚ :=
  let cs := stripChars s.data
  let (neg, cs1) := parseSign cs
  let (mant, expPart) := splitAtExp cs1
  match parseUnsignedDec mant with
  | Option.none => Option.none
  | some m =>
    let mv : ℚ := if neg then -m else m
    match expPart with
    | Option.none => some mv
    | some ecs =>
      let (eneg, ecs1) := parseSign ecs
      if ecs1.isEmpty || !ecs1.all Char.isDigit then Option.none
      else
        let e := digitsToNat ecs1
        some (if eneg then mv / (10 : ℚ) ^ e else mv * (10 : ℚ) ^ e)

/-- Python `float(v)` on the value returned by `row.get(...)`: numbers pass
through, strings are parsed (raising `ValueError` when unparsable), `None`
raises `TypeError`.  `Except.error` models the raised exception's message. -/
def pyFloat : PyVal → Except String ℚ
  | PyVal.vNum q => Except.ok q
  | PyVal.vStr s =>
    match parsePyFloat s with
    | some q => Except.ok q
    | Option.none => Except.error ("could not convert string to float: " ++ s)
  | PyVal.vNone =>
    Except.error "float() argument must be a string or a real number, not NoneType"

/-! ## Parsed tables and the ingestion loop (`server.py`, `upload_dataset`) -/

/-- A parsed pandas DataFrame: column headers and rows of cells. -/
structure Table where
  headers : List String
  rows : List (List PyVal)
deriving DecidableEq

/-- `df.columns = df.columns.str.strip()`: trim every header. -/
def stripTable (t : Table) : Table :=
  { t with headers := t.headers.map stripString }

/-- `row.get(label)` on a pandas row indexed by the DataFrame's columns:
the cell under the first matching header, `Option.none` when the label is
absent. -/
def rowGet (hs : List String) (row : List PyVal) (label : String) : Option PyVal :=
  match hs.findIdx? (fun h => decide (h = label)) with
  | Option.none => Option.none
  | some i => row.get? i

/-- One iteration of the ingestion loop: build an `Employee` from a row.
`employee_id`, `name`, `department` come verbatim from `row.get` (missing
column → `None`); `monthly_income` is `float(row.get("MonthlyIncome", 0))`
— the default `0` applies only when the column is absent, and `float` may
raise (`Except.error`), which aborts the request before any commit.
Remaining columns take the `models.py` defaults. -/
def mkEmployee (newId : String) (hs : List String) (row : List PyVal) :
    Except String Employee :=
  match pyFloat ((rowGet hs row "MonthlyIncome").getD (PyVal.vNum 0)) with
  | Except.error e => Except.error e
  | Except.ok inc =>
    Except.ok
      { id := newId
        employee_id := (rowGet hs row "EmployeeID").getD PyVal.vNone
        name := (rowGet hs row "Name").getD PyVal.vNone
        department := (rowGet hs row "Department").getD PyVal.vNone
        monthly_income := some inc
        age := Option.none
        gender := Option.none
        job_role := Option.none
        years_at_company := Option.none
        overtime := false
        attrition := false
        performance_rating := Option.none }

/-- The `for _, row in df.iterrows()` loop, staging one record per row
(`i` indexes the fresh-id source). -/
def mkEmployeesAux (ids : ℕ → String) (hs : List String) :
    ℕ → List (List PyVal) → Except String (List Employee)
  | _, [] => Except.ok []
  | i, r :: rs =>
    match mkEmployee (ids i) hs r with
    | Except.error e => Except.error e
    | Except.ok emp =>
      match mkEmployeesAux ids hs (i + 1) rs with
      | Except.error e => Except.error e
      | Except.ok es => Except.ok (emp :: es)

/-- All records staged by the ingestion loop over a parsed table. -/
def mkEmployees (ids : ℕ → String) (t : Table) : Except String (List Employee) :=
  mkEmployeesAux ids t.headers 0 t.rows

/-- An error surfaced by a request: an `HTTPException` with a status code
(client error) or an uncaught exception (generic 500 server error). -/
inductive ApiError
  | client (code : ℕ) (msg : String)
  | server (msg : String)
deriving DecidableEq

/-- Does this list contain a repeated element? -/
def hasDup {α : Type} [DecidableEq α] : List α → Bool
  | [] => false
  | a :: as => as.any (fun b => decide (b = a)) || hasDup as

/-- The non-`NULL` `employee_id` keys of a list of rows (SQLite's `UNIQUE`
index ignores `NULL`s). -/
def employeeIdKeys (es : List Employee) : List PyVal :=
  es.filterMap (fun e =>
    match e.employee_id with
    | PyVal.vNone => Option.none
    | v => some v)

/-- Does inserting `batch` into `store` violate a `UNIQUE` constraint of the
`employees` table (duplicate primary key `id`, or duplicate non-`NULL`
`employee_id`, within the batch or against stored rows)? -/
def insertConflict (store batch : List Employee) : Bool :=
  hasDup (batch.map Employee.id) ||
    (batch.map Employee.id).any
      (fun i => (store.map Employee.id).any (fun j => decide (j = i))) ||
    hasDup (employeeIdKeys batch) ||
    (employeeIdKeys batch).any
      (fun k => (employeeIdKeys store).any (fun j => decide (j = k)))

/-- `await db.commit()`: the staged batch is committed in one transaction —
all rows appended, or (on a constraint violation) an `IntegrityError` with
nothing committed. -/
def commitBatch (store batch : List Employee) : Except String Store :=
  if insertConflict store batch then
    Except.error "IntegrityError: UNIQUE constraint failed"
  else Except.ok (store ++ batch)

/-- The post-parse part of `upload_dataset`: strip headers, run the
ingestion loop, commit once.  Returns the request outcome (`rows_inserted`
on success) together with the store visible to subsequent readers.
Exceptions raised here (`float` errors, `IntegrityError`) are not caught by
the handler and surface as generic 500 server errors, with the session
discarded, so the visible store is unchanged. -/
def ingest (ids : ℕ → String) (t : Table) (store : Store) :
    Except ApiError ℕ × Store :=
  match mkEmployees ids (stripTable t) with
  | Except.error e => (Except.error (ApiError.server e), store)
  | Except.ok batch =>
    match commitBatch store batch with
    | Except.error e => (Except.error (ApiError.server e), store)
    | Except.ok store2 => (Except.ok (stripTable t).rows.length, store2)

/-- Handler `upload_dataset` of `server.py`.  Format is chosen by filename
suffix alone; `csvParse`/`xlsxParse` are the outcomes of the external
parsers on this file's bytes.  A parse failure is caught and re-raised as
`HTTPException(400, "File error: " + str(e))`.  An unrecognised suffix
raises `HTTPException(400, "Upload CSV or XLSX only")` inside the same
`try`, so it is caught by `except Exception` and re-wrapped (starlette
renders `str(e)` as `"400: Upload CSV or XLSX only"`) — still a 400 client
error. -/
def upload_dataset (ids : ℕ → String) (filename : String)
    (csvParse xlsxParse : Except String Table) (store : Store) :
    Except ApiError ℕ × Store :=
  if pyEndsWith filename ".csv" then
    match csvParse with
    | Except.error e =>
      (Except.error (ApiError.client 400 ("File error: " ++ e)), store)
    | Except.ok t => ingest ids t store
  else if pyEndsWith filename ".xlsx" then
    match xlsxParse with
    | Except.error e =>
      (Except.error (ApiError.client 400 ("File error: " ++ e)), store)
    | Except.ok t => ingest ids t store
  else
    (Except.error (ApiError.client 400 "File error: 400: Upload CSV or XLSX only"),
      store)

/-! ## Employee listing (`server.py`, `get_employees`) -/

/-- Response model `EmployeeResponse` of `server.py`: the reduced public
shape.  It has exactly these five fields; the demographic and performance
columns of `Employee` have no counterpart here. -/
structure EmployeeResponse where
  id : String
  employee_id : String
  name : String
  department : String
  monthly_income : ℚ
deriving DecidableEq

/-- Pydantic validation of a `str` field: accepts a string, rejects `None`
and numbers. -/
def asStr : PyVal → Except String String
  | PyVal.vStr s => Except.ok s
  | PyVal.vNone => Except.error "Input should be a valid string: got None"
  | PyVal.vNum _ => Except.error "Input should be a valid string: got a number"

/-- Construction of one `EmployeeResponse` in the list comprehension of
`get_employees`: pydantic validates the declared field types, raising
(`Except.error`, an uncaught `ValidationError` → 500) on a `NULL` or
non-string value. -/
def toResponse (e : Employee) : Except String EmployeeResponse :=
  match asStr e.employee_id with
  | Except.error m => Except.error m
  | Except.ok eid =>
    match asStr e.name with
    | Except.error m => Except.error m
    | Except.ok nm =>
      match asStr e.department with
      | Except.error m => Except.error m
      | Except.ok dep =>
        match e.monthly_income with
        | Option.none => Except.error "Input should be a valid number: got None"
        | some inc =>
          Except.ok
            { id := e.id
              employee_id := eid
              name := nm
              department := dep
              monthly_income := inc }

/-- Handler `get_employees` of `server.py`: map every stored record through
`EmployeeResponse`, in store order; the first validation failure aborts the
request. -/
def get_employees : Store → Except String (List EmployeeResponse)
  | [] => Except.ok []
  | e :: es =>
    match toResponse e with
    | Except.error m => Except.error m
    | Except.ok r =>
      match get_employees es with
      | Except.error m => Except.error m
      | Except.ok rs => Except.ok (r :: rs)

/-! ## Concrete sample data (reachable states and uploads, used to
instantiate the theorems) -/

/-- A deterministic stand-in for the `uuid.uuid4()` id source. -/
def sampleIds : ℕ → String := fun i => "uuid-" ++ toString i

/-- A stored employee with monthly income `0.125` (exactly representable in
binary floating point), as ingested from a row `E1,Alice,Eng,0.125`. -/
def emp18a : Employee :=
  { id := "uuid-0"
    employee_id := PyVal.vStr "E1"
    name := PyVal.vStr "Alice"
    department := PyVal.vStr "Eng"
    monthly_income := some (1 / 8)
    age := Option.none
    gender := Option.none
    job_role := Option.none
    years_at_company := Option.none
    overtime := false
    attrition := false
    performance_rating := Option.none }

/-- A second stored employee with monthly income `0.125`. -/
def emp18b : Employee :=
  { emp18a with id := "uuid-1", employee_id := PyVal.vStr "E2", name := PyVal.vStr "Bob" }

/-- A parsed CSV whose two rows carry the same `EmployeeID`. -/
def dupTable : Table :=
  { headers := ["EmployeeID"], rows := [[PyVal.vStr "E1"], [PyVal.vStr "E1"]] }

/-- The batch staged by the ingestion loop for `dupTable`: `Name`,
`Department` columns are absent (→ `NULL`), `MonthlyIncome` is absent
(→ `0`). -/
def dupBatch : List Employee :=
  [{ id := "uuid-0"
     employee_id := PyVal.vStr "E1"
     name := PyVal.vNone
     department := PyVal.vNone
     monthly_income := some 0
     age := Option.none
     gender := Option.none
     job_role := Option.none
     years_at_company := Option.none
     overtime := false
     attrition := false
     performance_rating := Option.none },
   { id := "uuid-1"
     employee_id := PyVal.vStr "E1"
     name := PyVal.vNone
     department := PyVal.vNone
     monthly_income := some 0
     age := Option.none
     gender := Option.none
     job_role := Option.none
     years_at_company := Option.none
     overtime := false
     attrition := false
     performance_rating := Option.none }]

/-- A parsed CSV whose `MonthlyIncome` column holds the unparsable value
`"abc"`. -/
def abcTable : Table :=
  { headers := ["MonthlyIncome"], rows := [[PyVal.vStr "abc"]] }

/-- A well-formed one-row parsed CSV (note the untrimmed ` EmployeeID`
header, stripped by the handler). -/
def goodTable : Table :=
  { headers := [" EmployeeID", "Name", "Department", "MonthlyIncome"],
    rows := [[PyVal.vStr "E1", PyVal.vStr "Alice", PyVal.vStr "Eng", PyVal.vNum 5000]] }

/-- The single record staged for `goodTable`. -/
def aliceEmp : Employee :=
  { id := "uuid-0"
    employee_id := PyVal.vStr "E1"
    name := PyVal.vStr "Alice"
    department := PyVal.vStr "Eng"
    monthly_income := some 5000
    age := Option.none
    gender := Option.none
    job_role := Option.none
    years_at_company := Option.none
    overtime := false
    attrition := false
    performance_rating := Option.none }

/-- `aliceEmp` with a `NULL` name, as ingested from a CSV without a `Name`
column. -/
def noNameEmp : Employee :=
  { aliceEmp with name := PyVal.vNone }

/-- The response row produced for `aliceEmp`. -/
def aliceResp : EmployeeResponse :=
  { id := "uuid-0"
    employee_id := "E1"
    name := "Alice"
    department := "Eng"
    monthly_income := 5000 }

/-- Replace all demographic/performance attributes of a record (those not
exposed by the query service), leaving the five public fields unchanged. -/
def withDemographics (e : Employee) (a : Option ℤ) (g j : Option String)
    (y : Option ℤ) (o att : Bool) (p : Option ℤ) : Employee :=
  { e with
      age := a
      gender := g
      job_role := j
      years_at_company := y
      overtime := o
      attrition := att
      performance_rating := p }

/-! ## Helper lemmas -/

theorem pyRoundHalfEven_of_lt (x : ℚ) (n : ℤ) (h1 : (n : ℚ) ≤ x)
    (h2 : x - (n : ℚ) < 1 / 2) : pyRoundHalfEven x = n := by
  have hfl : ⌊x⌋ = n := by
    rw [Int.floor_eq_iff]
    constructor
    · exact h1
    · have : x < (n : ℚ) + 1 / 2 := by linarith
      linarith
  unfold pyRoundHalfEven
  rw [hfl, if_pos h2]

theorem pyRoundHalfEven_tie (x : ℚ) (n : ℤ) (h : x - (n : ℚ) = 1 / 2) :
    pyRoundHalfEven x = if n % 2 = 0 then n else n + 1 := by
  have hfl : ⌊x⌋ = n := by
    rw [Int.floor_eq_iff]
    constructor
    · linarith
    · linarith
  unfold pyRoundHalfEven
  rw [hfl, h]
  norm_num

/-- The loop stages exactly one record per parsed row. -/
theorem mkEmployeesAux_length (ids : ℕ → String) (hs : List String) :
    ∀ (rs : List (List PyVal)) (i : ℕ) (es : List Employee),
      mkEmployeesAux ids hs i rs = Except.ok es → es.length = rs.length := by
  intro rs
  induction rs with
  | nil =>
    intro i es h
    unfold mkEmployeesAux at h
    cases h
    rfl
  | cons r rs ih =>
    intro i es h
    unfold mkEmployeesAux at h
    cases hm : mkEmployee (ids i) hs r with
    | error e => rw [hm] at h; cases h
    | ok emp =>
      rw [hm] at h
      cases haux : mkEmployeesAux ids hs (i + 1) rs with
      | error e => rw [haux] at h; cases h
      | ok es2 =>
        rw [haux] at h
        cases h
        simp [ih (i + 1) es2 haux]

theorem mkEmployees_length (ids : ℕ → String) (t : Table) (es : List Employee)
    (h : mkEmployees ids t = Except.ok es) : es.length = t.rows.length :=
  mkEmployeesAux_length ids t.headers t.rows 0 es h

theorem commitBatch_ok_eq (store batch : List Employee) (s2 : Store)
    (h : commitBatch store batch = Except.ok s2) : s2 = store ++ batch := by
  unfold commitBatch at h
  by_cases hc : insertConflict store batch = true
  · rw [if_pos hc] at h; cases h
  · rw [if_neg hc] at h; cases h; rfl

theorem commitBatch_err_of (store batch : List Employee)
    (hc : insertConflict store batch = true) :
    commitBatch store batch = Except.error "IntegrityError: UNIQUE constraint failed" := by
  unfold commitBatch
  rw [if_pos hc]

/-- Successful ingestion: the staged batch is appended and the row count
returned. -/
theorem ingest_ok_of (ids : ℕ → String) (t : Table) (store : Store)
    (batch : List Employee)
    (hmk : mkEmployees ids (stripTable t) = Except.ok batch)
    (hc : insertConflict store batch = false) :
    ingest ids t store = (Except.ok t.rows.length, store ++ batch) := by
  unfold ingest
  rw [hmk]
  dsimp only
  unfold commitBatch
  rw [hc]
  simp [stripTable]

/-- Ingestion is all-or-nothing: either every staged row is appended (and
the reported count matches the appended batch), or an error is returned and
the visible store is exactly the old one. -/
theorem ingest_cases (ids : ℕ → String) (t : Table) (store : Store) :
    (∃ n batch, ingest ids t store = (Except.ok n, store ++ batch) ∧
      batch.length = n) ∨
    (∃ err, ingest ids t store = (Except.error err, store)) := by
  unfold ingest
  cases hmk : mkEmployees ids (stripTable t) with
  | error e =>
    right
    refine ⟨ApiError.server e, ?_⟩
    rfl
  | ok batch =>
    cases hcb : commitBatch store batch with
    | error e =>
      right
      refine ⟨ApiError.server e, ?_⟩
      dsimp only
      rw [hcb]
    | ok s2 =>
      left
      refine ⟨(stripTable t).rows.length, batch, ?_, ?_⟩
      · dsimp only
        rw [hcb, commitBatch_ok_eq store batch s2 hcb]
      · exact mkEmployees_length ids (stripTable t) batch hmk

/-- A label absent from the headers is not found by `row.get`. -/
theorem rowGet_of_not_mem (hs : List String) (row : List PyVal) (label : String)
    (h : label ∉ hs) : rowGet hs row label = Option.none := by
  unfold rowGet
  have hidx : hs.findIdx? (fun h2 => decide (h2 = label)) = Option.none := by
    induction hs with
    | nil => rfl
    | cons a as ih =>
      have ha : a ≠ label := fun e => h (by simp [e])
      have h2 : label ∉ as := fun m => h (List.mem_cons_of_mem a m)
      simp [List.findIdx?_cons, ha, ih h2]
  rw [hidx]

theorem upload_csv_eq (ids : ℕ → String) (fn : String) (cP xP : Except String Table)
    (store : Store) (h : pyEndsWith fn ".csv" = true) :
    upload_dataset ids fn cP xP store =
      match cP with
      | Except.error e =>
        (Except.error (ApiError.client 400 ("File error: " ++ e)), store)
      | Except.ok t => ingest ids t store := by
  unfold upload_dataset
  rw [if_pos h]

theorem upload_xlsx_eq (ids : ℕ → String) (fn : String) (cP xP : Except String Table)
    (store : Store) (h1 : pyEndsWith fn ".csv" = false)
    (h2 : pyEndsWith fn ".xlsx" = true) :
    upload_dataset ids fn cP xP store =
      match xP with
      | Except.error e =>
        (Except.error (ApiError.client 400 ("File error: " ++ e)), store)
      | Except.ok t => ingest ids t store := by
  unfold upload_dataset
  rw [if_neg (by simp [h1]), if_pos h2]

/-! ## Claim theorems -/

/-- C4: for every uploaded file whose declared filename ends with neither
".csv" nor ".xlsx", the upload fails with an HTTP 400 client error carrying
a descriptive message, regardless of the file's content, and the store is
untouched. -/
theorem upload_bad_suffix_client_error (ids : ℕ → String) (fn : String)
    (cP xP : Except String Table) (store : Store)
    (h1 : pyEndsWith fn ".csv" = false) (h2 : pyEndsWith fn ".xlsx" = false) :
    upload_dataset ids fn cP xP store =
      (Except.error (ApiError.client 400 "File error: 400: Upload CSV or XLSX only"),
        store) := by
  unfold upload_dataset
  rw [if_neg (by simp [h1]), if_neg (by simp [h2])]

/-- Witness for C4: uploading a file named "data.txt" fails with the 400
client error whatever both parsers would say. -/
theorem upload_bad_suffix_client_error_witness :
    upload_dataset sampleIds "data.txt" (Except.error "x") (Except.error "y") [] =
      (Except.error (ApiError.client 400 "File error: 400: Upload CSV or XLSX only"),
        []) :=
  upload_bad_suffix_client_error sampleIds "data.txt" (Except.error "x")
    (Except.error "y") [] (by decide) (by decide)

/-- C5: for every uploaded file with an accepted suffix whose content fails
to parse, the upload fails with an HTTP 400 client error whose message
extends the underlying parser/decoder error message, leaving the store
untouched (both the `.csv` and the `.xlsx` branch). -/
theorem upload_parse_failure_client_error (ids : ℕ → String) (fn : String)
    (e : String) (cP xP : Except String Table) (store : Store) :
    (pyEndsWith fn ".csv" = true →
      upload_dataset ids fn (Except.error e) xP store =
        (Except.error (ApiError.client 400 ("File error: " ++ e)), store)) ∧
    (pyEndsWith fn ".csv" = false → pyEndsWith fn ".xlsx" = true →
      upload_dataset ids fn cP (Except.error e) store =
        (Except.error (ApiError.client 400 ("File error: " ++ e)), store)) := by
  constructor
  · intro h
    rw [upload_csv_eq ids fn (Except.error e) xP store h]
  · intro h1 h2
    rw [upload_xlsx_eq ids fn cP (Except.error e) store h1 h2]

/-- Witness for C5: a CSV whose bytes fail to decode with message
"decode failed" is rejected with a 400 carrying that message. -/
theorem upload_parse_failure_client_error_witness :
    upload_dataset sampleIds "emp.csv" (Except.error "decode failed")
        (Except.error "y") [] =
      (Except.error (ApiError.client 400 "File error: decode failed"), []) :=
  (upload_parse_failure_client_error sampleIds "emp.csv" "decode failed"
    (Except.error "z") (Except.error "y") []).1 (by decide)

/-- C6: batch ingestion is atomic — for every upload, either all staged
records are appended by the single commit (and the reported count equals
the number of appended records), or an error is reported and the store
visible afterwards is exactly the store from before the request. -/
theorem upload_atomic (ids : ℕ → String) (fn : String)
    (cP xP : Except String Table) (store : Store) :
    (∃ n batch, upload_dataset ids fn cP xP store = (Except.ok n, store ++ batch) ∧
      batch.length = n) ∨
    (∃ err, upload_dataset ids fn cP xP store = (Except.error err, store)) := by
  by_cases h1 : pyEndsWith fn ".csv" = true
  · rw [upload_csv_eq ids fn cP xP store h1]
    cases cP with
    | error e => right; exact ⟨ApiError.client 400 ("File error: " ++ e), rfl⟩
    | ok t => exact ingest_cases ids t store
  · by_cases h2 : pyEndsWith fn ".xlsx" = true
    · rw [upload_xlsx_eq ids fn cP xP store (by simpa using h1) h2]
      cases xP with
      | error e => right; exact ⟨ApiError.client 400 ("File error: " ++ e), rfl⟩
      | ok t => exact ingest_cases ids t store
    · rw [upload_bad_suffix_client_error ids fn cP xP store (by simpa using h1)
        (by simpa using h2)]
      right
      exact ⟨ApiError.client 400 "File error: 400: Upload CSV or XLSX only", rfl⟩

/-- Evaluation fact: Python `round(0.125, 2) = 0.12` (a tie rounded to the
even cent). -/
theorem pyRound2_eighth : pyRound2 (1 / 8) = 3 / 25 := by
  unfold pyRound2
  rw [show ((1 : ℚ) / 8 * 100) = 25 / 2 by norm_num]
  rw [pyRoundHalfEven_tie (25 / 2) 12 (by norm_num)]
  norm_num

theorem pyRound2_zero : pyRound2 0 = 0 := by
  unfold pyRound2
  rw [show ((0 : ℚ) * 100) = 0 by norm_num]
  rw [pyRoundHalfEven_of_lt 0 0 (by norm_num) (by norm_num)]
  norm_num

/-- C1 fails as stated: on the reachable store holding two employees with
monthly income 0.125 each, the returned `avg_salary` is 0.12, not the
payroll sum divided by the record count (0.125).  (The same input also
refutes the reading "returned total divided by returned count": 0.25 / 2 =
0.125 ≠ 0.12.) -/
theorem kpi_avg_not_exact_quotient :
    (get_kpis [emp18a, emp18b]).avg_salary ≠
      payrollSum [emp18a, emp18b] / (([emp18a, emp18b] : Store).length : ℚ) := by
  have hsum : payrollSum [emp18a, emp18b] = 1 / 4 := by
    simp [payrollSum, emp18a, emp18b]
    norm_num
  have havg : (get_kpis [emp18a, emp18b]).avg_salary = pyRound2 (1 / 8) := by
    simp [get_kpis, hsum]
    norm_num
  rw [havg, pyRound2_eighth, hsum]
  norm_num

/-- C1 (amended): the returned `avg_salary` equals the payroll sum divided
by the record count, rounded to two decimals, when the count is positive,
and the empty store yields the KPI response (0, 0.0, 0.0). -/
theorem kpi_avg_rounded_quotient :
    (∀ store : Store, store.length ≠ 0 →
      (get_kpis store).avg_salary =
        pyRound2 (payrollSum store / (store.length : ℚ))) ∧
    get_kpis [] =
      { total_employees := 0, total_payroll_cost := 0, avg_salary := 0 } := by
  constructor
  · intro store h
    simp [get_kpis, h]
  · simp [get_kpis, payrollSum, pyRound2_zero]

/-- Witness for C1 (amended) on a singleton store. -/
theorem kpi_avg_rounded_quotient_witness :
    (get_kpis [emp18a]).avg_salary =
      pyRound2 (payrollSum [emp18a] / (([emp18a] : Store).length : ℚ)) :=
  kpi_avg_rounded_quotient.1 [emp18a] (by decide)

/-- C2 fails as stated: a valid two-row CSV whose rows share the
`EmployeeID` "E1" violates the unique index on `employee_id` at commit
time, so the request errors (a 500, since the `IntegrityError` is not
caught) and zero of its 2 rows are inserted. -/
theorem upload_duplicate_rows_not_inserted :
    dupTable.rows.length = 2 ∧
    upload_dataset sampleIds "emp.csv" (Except.ok dupTable) (Except.error "x") [] =
      (Except.error (ApiError.server "IntegrityError: UNIQUE constraint failed"),
        []) ∧
    (upload_dataset sampleIds "emp.csv" (Except.ok dupTable)
        (Except.error "x") []).2.length ≠ 2 := by
  refine ⟨rfl, rfl, ?_⟩
  have h2 : (upload_dataset sampleIds "emp.csv" (Except.ok dupTable)
      (Except.error "x") []).2 = ([] : Store) := rfl
  rw [h2]
  decide

/-- C2 (amended): for every upload that parses to a table with N rows,
provided every staged row's construction succeeds (`MonthlyIncome` absent
or parseable) and the staged batch violates no unique constraint (fresh
generated ids, non-conflicting `EmployeeID`s), `rows_inserted = N` and the
store grows by exactly those N staged records — rows are otherwise not
validated or rejected. -/
theorem upload_inserts_all_rows (ids : ℕ → String) (fn : String) (t : Table)
    (cP xP : Except String Table) (store : Store) (batch : List Employee)
    (hmk : mkEmployees ids (stripTable t) = Except.ok batch)
    (hc : insertConflict store batch = false) :
    batch.length = t.rows.length ∧
    (pyEndsWith fn ".csv" = true →
      upload_dataset ids fn (Except.ok t) xP store =
        (Except.ok t.rows.length, store ++ batch)) ∧
    (pyEndsWith fn ".csv" = false → pyEndsWith fn ".xlsx" = true →
      upload_dataset ids fn cP (Except.ok t) store =
        (Except.ok t.rows.length, store ++ batch)) := by
  refine ⟨?_, ?_, ?_⟩
  · simpa [stripTable] using mkEmployees_length ids (stripTable t) batch hmk
  · intro h
    rw [upload_csv_eq ids fn (Except.ok t) xP store h]
    exact ingest_ok_of ids t store batch hmk hc
  · intro h1 h2
    rw [upload_xlsx_eq ids fn cP (Except.ok t) store h1 h2]
    exact ingest_ok_of ids t store batch hmk hc

/-- Witness for C2 (amended): one well-formed row is inserted with
`rows_inserted = 1`. -/
theorem upload_inserts_all_rows_witness :
    upload_dataset sampleIds "emp.csv" (Except.ok goodTable) (Except.error "x") [] =
      (Except.ok 1, [aliceEmp]) := by
  have h := (upload_inserts_all_rows sampleIds "emp.csv" goodTable
    (Except.error "z") (Except.error "x") [] [aliceEmp] (by rfl) (by rfl)).2.1
    (by decide)
  simpa [goodTable] using h

/-- C3 fails as stated: a CSV whose present `MonthlyIncome` column holds
the unparsable value "abc" does not yield a stored income of 0 — `float`
raises, the request fails as a 500, and nothing is stored. -/
theorem upload_unparsable_income_errors :
    upload_dataset sampleIds "emp.csv" (Except.ok abcTable) (Except.error "x") [] =
      (Except.error (ApiError.server "could not convert string to float: abc"),
        []) := rfl

/-- C3 (amended): during ingestion a missing "MonthlyIncome" column yields
a stored monthly income of 0, but an unparsable value in a present column
raises the `float` conversion error (aborting the request) rather than
defaulting to 0. -/
theorem income_missing_defaults_unparsable_errors :
    (∀ (newId : String) (hs : List String) (row : List PyVal),
      "MonthlyIncome" ∉ hs →
      ∃ e, mkEmployee newId hs row = Except.ok e ∧ e.monthly_income = some 0) ∧
    (∀ (newId : String) (hs : List String) (row : List PyVal) (s : String),
      rowGet hs row "MonthlyIncome" = some (PyVal.vStr s) →
      parsePyFloat s = Option.none →
      mkEmployee newId hs row =
        Except.error ("could not convert string to float: " ++ s)) := by
  constructor
  · intro newId hs row h
    unfold mkEmployee
    rw [rowGet_of_not_mem hs row "MonthlyIncome" h]
    exact ⟨_, rfl, rfl⟩
  · intro newId hs row s hget hparse
    unfold mkEmployee
    rw [hget]
    dsimp only [Option.getD]
    unfold pyFloat
    dsimp only
    rw [hparse]

/-- Witness for C3 (amended): a row of a table without a "MonthlyIncome"
column is stored with income 0. -/
theorem income_missing_defaults_unparsable_errors_witness :
    ∃ e, mkEmployee "uuid-0" ["EmployeeID"] [PyVal.vStr "E1"] = Except.ok e ∧
      e.monthly_income = some 0 :=
  income_missing_defaults_unparsable_errors.1 "uuid-0" ["EmployeeID"]
    [PyVal.vStr "E1"] (by decide)

/-- C7: for every state of the record store, the monetary KPI fields
`total_payroll_cost` and `avg_salary` are integer multiples of 1/100, i.e.
rounded to exactly two decimal places. -/
theorem kpi_fields_two_decimals (store : Store) :
    (∃ k : ℤ, (get_kpis store).total_payroll_cost = (k : ℚ) / 100) ∧
    (∃ m : ℤ, (get_kpis store).avg_salary = (m : ℚ) / 100) := by
  constructor
  · exact ⟨pyRoundHalfEven (payrollSum store * 100), rfl⟩
  · exact ⟨pyRoundHalfEven
      ((if store.length = 0 then 0 else payrollSum store / (store.length : ℚ)) * 100),
      rfl⟩

/-- A record that validates into the response shape exposes exactly the
five public fields, verbatim. -/
theorem toResponse_ok_fields (e : Employee) (r : EmployeeResponse)
    (h : toResponse e = Except.ok r) :
    r.id = e.id ∧ e.employee_id = PyVal.vStr r.employee_id ∧
    e.name = PyVal.vStr r.name ∧ e.department = PyVal.vStr r.department ∧
    e.monthly_income = some r.monthly_income := by
  unfold toResponse at h
  cases hid : e.employee_id with
  | vNone => rw [hid] at h; simp [asStr] at h
  | vNum q => rw [hid] at h; simp [asStr] at h
  | vStr sid =>
    rw [hid] at h
    simp only [asStr] at h
    cases hnm : e.name with
    | vNone => rw [hnm] at h; simp [asStr] at h
    | vNum q => rw [hnm] at h; simp [asStr] at h
    | vStr snm =>
      rw [hnm] at h
      simp only [asStr] at h
      cases hdep : e.department with
      | vNone => rw [hdep] at h; simp [asStr] at h
      | vNum q => rw [hdep] at h; simp [asStr] at h
      | vStr sdep =>
        rw [hdep] at h
        simp only [asStr] at h
        cases hinc : e.monthly_income with
        | none => rw [hinc] at h; simp at h
        | some q =>
          rw [hinc] at h
          simp only at h
          cases h
          exact ⟨rfl, rfl, rfl, rfl, rfl⟩

/-- When every stored record validates, the listing returns them all, in
order, through `toResponse`. -/
theorem get_employees_all_ok (store : Store)
    (h : ∀ e ∈ store, ∃ r, toResponse e = Except.ok r) :
    ∃ rs, get_employees store = Except.ok rs ∧
      List.Forall₂ (fun e r => toResponse e = Except.ok r) store rs := by
  induction store with
  | nil => exact ⟨[], rfl, List.Forall₂.nil⟩
  | cons e es ih =>
    obtain ⟨r, hr⟩ := h e (List.mem_cons_self e es)
    obtain ⟨rs, hrs, hf⟩ := ih (fun x hx => h x (List.mem_cons_of_mem e hx))
    refine ⟨r :: rs, ?_, List.Forall₂.cons hr hf⟩
    unfold get_employees
    rw [hr]
    dsimp only
    rw [hrs]

/-- A record with a `NULL` public field fails response validation. -/
theorem toResponse_err_of_null (e : Employee)
    (h : e.employee_id = PyVal.vNone ∨ e.name = PyVal.vNone ∨
      e.department = PyVal.vNone ∨ e.monthly_income = Option.none) :
    ∃ m, toResponse e = Except.error m := by
  cases hr : toResponse e with
  | error m => exact ⟨m, rfl⟩
  | ok r =>
    exfalso
    obtain ⟨_, hid, hnm, hdep, hinc⟩ := toResponse_ok_fields e r hr
    rcases h with h | h | h | h
    · rw [h] at hid; cases hid
    · rw [h] at hnm; cases hnm
    · rw [h] at hdep; cases hdep
    · rw [h] at hinc; cases hinc

/-- A failing record anywhere in the store makes the whole listing fail. -/
theorem get_employees_err_of_mem : ∀ (store : Store) (e : Employee),
    e ∈ store → (∃ m, toResponse e = Except.error m) →
    ∃ m, get_employees store = Except.error m := by
  intro store
  induction store with
  | nil => intro e he; exact absurd he (List.not_mem_nil e)
  | cons a as ih =>
    intro e he hm
    unfold get_employees
    cases ha : toResponse a with
    | error m => exact ⟨m, rfl⟩
    | ok r =>
      dsimp only
      rcases List.mem_cons.mp he with rfl | hmem
      · obtain ⟨m, hm2⟩ := hm
        rw [ha] at hm2
        cases hm2
      · obtain ⟨m, hge⟩ := ih e hmem hm
        rw [hge]
        exact ⟨m, rfl⟩

/-- C8: `GET /api/employees` returns every stored record mapped into
exactly the reduced five-field shape (id, employee_id, name, department,
monthly_income), the public fields taken verbatim, and the demographic and
performance attributes never influence (nor appear in) the response. -/
theorem employees_reduced_shape :
    (∀ store : Store, (∀ e ∈ store, ∃ r, toResponse e = Except.ok r) →
      ∃ rs, get_employees store = Except.ok rs ∧
        List.Forall₂ (fun e r => toResponse e = Except.ok r) store rs) ∧
    (∀ (e : Employee) (r : EmployeeResponse), toResponse e = Except.ok r →
      r.id = e.id ∧ e.employee_id = PyVal.vStr r.employee_id ∧
      e.name = PyVal.vStr r.name ∧ e.department = PyVal.vStr r.department ∧
      e.monthly_income = some r.monthly_income) ∧
    (∀ (e : Employee) (a : Option ℤ) (g j : Option String) (y : Option ℤ)
      (o att : Bool) (p : Option ℤ),
      toResponse (withDemographics e a g j y o att p) = toResponse e) :=
  ⟨get_employees_all_ok, toResponse_ok_fields, fun _ _ _ _ _ _ _ _ => rfl⟩

/-- Witness for C8 on a singleton store of one fully populated record. -/
theorem employees_reduced_shape_witness :
    ∃ rs, get_employees [aliceEmp] = Except.ok rs ∧
      List.Forall₂ (fun e r => toResponse e = Except.ok r) [aliceEmp] rs :=
  employees_reduced_shape.1 [aliceEmp]
    (fun e he => by
      rw [List.mem_singleton] at he
      subst he
      exact ⟨aliceResp, rfl⟩)

/-- C9: if any stored record has a `NULL` business employee identifier,
name, department, or monthly income, `GET /api/employees` fails (an
uncaught validation error, surfaced as a server error) instead of
returning records. -/
theorem employees_null_field_error (store : Store) (e : Employee)
    (he : e ∈ store)
    (h : e.employee_id = PyVal.vNone ∨ e.name = PyVal.vNone ∨
      e.department = PyVal.vNone ∨ e.monthly_income = Option.none) :
    ∃ m, get_employees store = Except.error m :=
  get_employees_err_of_mem store e he (toResponse_err_of_null e h)

/-- Witness for C9: a store holding a record ingested without a `Name`
column fails to list. -/
theorem employees_null_field_error_witness :
    ∃ m, get_employees [noNameEmp] = Except.error m :=
  employees_null_field_error [noNameEmp] noNameEmp (List.mem_singleton.mpr rfl)
    (Or.inr (Or.inl rfl))

/-- C10: uploading a file whose staged batch repeats a non-`NULL`
`EmployeeID` (within the file or against an already-stored record) makes
the final commit fail — surfaced as a generic server error, not a client
error — and, by atomicity, zero rows of the upload are committed. -/
theorem upload_duplicate_key_server_error (ids : ℕ → String) (fn : String)
    (t : Table) (xP : Except String Table) (store : Store)
    (batch : List Employee)
    (hcsv : pyEndsWith fn ".csv" = true)
    (hmk : mkEmployees ids (stripTable t) = Except.ok batch)
    (hdup : hasDup (employeeIdKeys batch) = true ∨
      (employeeIdKeys batch).any
        (fun k => (employeeIdKeys store).any (fun j => decide (j = k))) = true) :
    ∃ m, upload_dataset ids fn (Except.ok t) xP store =
      (Except.error (ApiError.server m), store) := by
  have hconf : insertConflict store batch = true := by
    unfold insertConflict
    rcases hdup with h | h <;> simp [h]
  refine ⟨"IntegrityError: UNIQUE constraint failed", ?_⟩
  rw [upload_csv_eq ids fn (Except.ok t) xP store hcsv]
  dsimp only
  unfold ingest
  rw [hmk]
  dsimp only
  rw [commitBatch_err_of store batch hconf]

/-- Witness for C10: the two-row duplicate-id CSV commits nothing and
surfaces a server error. -/
theorem upload_duplicate_key_server_error_witness :
    ∃ m, upload_dataset sampleIds "emp.csv" (Except.ok dupTable)
        (Except.error "x") [] = (Except.error (ApiError.server m), []) :=
  upload_duplicate_key_server_error sampleIds "emp.csv" dupTable
    (Except.error "x") [] dupBatch (by decide) (by rfl) (Or.inl (by decide))

end Payroll
